import Mathlib

/-
Verification of the AC Engine runtime core (class GameRuntime plus the
data-model factory make_default_object in the single Python source file).

The embedding below translates the simulation-relevant parts of the source
into pure Lean functions:
  * Python dict-shaped entities, frames and rule groups become structures
    whose fields are exactly the keys the runtime reads or writes; fields
    that the runtime never touches (animations, rotation, opacity, layers,
    colors, fonts) are omitted.
  * Python numbers on entity fields are rationals; integer counters
    (tick, frame_ms, entity ids) are naturals; lives is an integer
    because the built-in damage check decrements it without a clamp.
  * In-place mutation of self and of entity dicts becomes explicit state
    passing.  Aliased mutation of an entity found by lookup becomes a
    by-id update of the first entity with that id (entity ids are unique
    in a live simulation, per the data-model invariant).
  * Python exceptions (TypeError from an order comparison of a number
    with a string, ZeroDivisionError from a zero modulus) become the
    error case of Except Unit; a raised error aborts the surrounding
    tick exactly as an uncaught exception aborts the game_loop callback.
  * uid() (a random hex string) becomes a fresh-id counter nextId, the
    only source of nondeterminism in the runtime core.
  * Tk rendering, window management and input event bindings are outside
    the embedding: render only draws and never mutates simulation state,
    and close() is modeled as running := false.
-/

namespace ACE

/-- Values appearing in rule parameter maps: the editor stores numbers or
strings, and the runtime dispatches on what is actually present. -/
inductive PValue where
  | num (q : ℚ)
  | str (s : String)
  deriving DecidableEq, Repr

/-- Runtime entity: the authored dict fields read or written by
GameRuntime, plus the ephemeral fields load_frame adds (dx, dy, grounded,
alive, flash_timer, dir_x, gravity). -/
structure Entity where
  id : ℕ := 0
  name : String := ""
  typ : String := "Active"
  x : ℚ := 0
  y : ℚ := 0
  w : ℚ := 32
  h : ℚ := 32
  visible : Bool := true
  speed : ℚ := 0
  movement : String := "Static"
  counterValue : ℚ := 0
  solid : Bool := false
  scoreValue : ℚ := 0
  destroyOnCollect : Bool := false
  dx : ℚ := 0
  dy : ℚ := 0
  grounded : Bool := false
  alive : Bool := true
  flashTimer : ℚ := 0
  dirX : ℚ := 1
  gravity : Bool := false
  deriving DecidableEq, Repr

instance : Inhabited Entity := ⟨{}⟩

/-- Condition kinds of eval_condition, with the parameters each branch
reads.  The Once kind carries its persistent fired flag (the _fired key the
source stores on the condition dict itself).  Parameters that the source
may receive as non-numeric editor input are PValue. -/
inductive CondKind where
  | always
  | never
  | once (fired : Bool)
  | atStartOfFrame
  | keyPressed (key : String)
  | everyNMs (ms : PValue)
  | collidesWith (target other : String)
  | compareCounter (target : String) (op : String) (value : PValue)
  | mouseClicked
  | outOfPlayfield (target : String)
  | unknownCond
  deriving DecidableEq, Repr

/-- A condition dict: its type tag with parameters, and the negated flag
process_events applies to the raw result. -/
structure Condition where
  kind : CondKind := CondKind.always
  negated : Bool := false
  deriving DecidableEq, Repr

instance : Inhabited Condition := ⟨{}⟩

/-- Action kinds of exec_action with their parameters.  Parameter defaults
of params.get are resolved at embedding time; Set position keeps Option
coordinates because its defaults are the per-entity current position. -/
inductive Act where
  | destroy (target : String)
  | setPosition (target : String) (px py : Option ℚ)
  | setX (target : String) (v : ℚ)
  | setY (target : String) (v : ℚ)
  | setSpeed (target : String) (v : ℚ)
  | addToCounter (target : String) (v : ℚ)
  | setCounterTo (target : String) (v : ℚ)
  | addToScore (v : ℚ)
  | setScore (v : ℚ)
  | subtractLife
  | addLife
  | goToFrame (idx : ℤ)
  | nextFrame
  | restartFrame
  | endApplication
  | makeInvisible (target : String)
  | makeVisible (target : String)
  | flash (target : String) (duration : ℚ)
  | bounce (target : String)
  | setGlobalValue (idx : ℤ) (v : ℚ)
  | addToGlobalValue (idx : ℤ) (v : ℚ)
  | createObject (typ : String) (px py : ℚ)
  | unknownAct
  deriving DecidableEq, Repr

/-- A rule group ("event"): active flag, condition list, action list. -/
structure Group where
  active : Bool := true
  conditions : List Condition := []
  actions : List Act := []
  deriving DecidableEq, Repr

instance : Inhabited Group := ⟨{}⟩

/-- A frame (scene): the fields the runtime reads.  objects is the
authored entity list that load_frame clones; events is the rule-group
list, which is mutable state because Once conditions store their fired
flag inside it. -/
structure Frame where
  width : ℚ := 800
  height : ℚ := 600
  objects : List Entity := []
  events : List Group := []
  deriving DecidableEq, Repr

instance : Inhabited Frame := ⟨{}⟩

/-- The mutable runtime state: the fields of the GameRuntime object that
the simulation logic reads or writes.  frames is the deep copy
self.project["frames"] owned by the runtime (rule evaluation mutates Once
flags inside it); keys is the set of currently held keys; mouseDown is
whether primary mouse button 1 is held. -/
structure RState where
  frames : List Frame := []
  frameIdx : ℕ := 0
  running : Bool := true
  paused : Bool := false
  frameMs : ℕ := 16
  tick : ℕ := 0
  score : ℚ := 0
  lives : ℤ := 3
  global_values : List ℚ := []
  keys : List String := []
  mouseDown : Bool := false
  entities : List Entity := []
  frameStarted : Bool := false
  nextId : ℕ := 1000
  deriving DecidableEq, Repr

instance : Inhabited RState := ⟨{}⟩

/-- Translation of the module-level helper clamp(val, lo, hi). -/
def clamp (val lo hi : ℚ) : ℚ := max lo (min hi val)

/-- Translation of make_default_object: only the runtime-relevant fields,
with the same per-type defaults.  The random uid() becomes the supplied
fresh id; the name suffix uses that id in place of the uid prefix. -/
def make_default_object (obj_type : String) (px py : ℚ) (theId : ℕ) : Entity :=
  let base : Entity :=
    { id := theId
      typ := obj_type
      name := obj_type ++ "_" ++ toString theId
      x := px, y := py
      w := 32, h := 32
      visible := true
      speed := 0
      movement := "Static"
      counterValue := 0
      solid := (obj_type == "Backdrop" || obj_type == "Platform")
      scoreValue := if obj_type == "Coin" then 100 else 0
      destroyOnCollect := (obj_type == "Coin") }
  if obj_type == "Platform" then { base with w := 96, solid := true, movement := "Static" }
  else if obj_type == "Player" then { base with movement := "Player", speed := 5 }
  else if obj_type == "Enemy" then { base with movement := "Bouncing", speed := 2 }
  else if obj_type == "Coin" then { base with w := 24, h := 24 }
  else if obj_type == "Counter" then { base with counterValue := 0, w := 64, h := 24 }
  else if obj_type == "Text" then { base with w := 120, h := 28 }
  else if obj_type == "Trigger" then { base with w := 48, h := 48, visible := false }
  else if obj_type == "Particle" then { base with w := 16, h := 16 }
  else base

/-- Translation of GameRuntime.load_frame: an out-of-range index calls
close() (running := false) and returns; otherwise the frame authored
objects are cloned into the live entity list with the ephemeral runtime
fields initialized, the frame is marked just started, and the tick
counter is reset.  The frames list itself (and hence every Once fired
flag stored in it) is not touched. -/
def load_frame (s : RState) (idx : ℤ) : RState :=
  if idx < 0 ∨ (s.frames.length : ℤ) ≤ idx then
    { s with running := false }
  else
    let i := idx.toNat
    let frame := s.frames.getD i default
    { s with
      frameIdx := i
      entities := frame.objects.map (fun o =>
        { o with
          dx := 0, dy := 0, grounded := false, alive := true, flashTimer := 0
          dirX := if o.movement != "Static" then 1 else 0
          gravity := (o.movement == "Player" || o.movement == "Platform") })
      frameStarted := true
      tick := 0 }

/-- Translation of GameRuntime.aabb_overlap. -/
def aabb_overlap (a b : Entity) : Bool :=
  decide (a.x < b.x + b.w) && decide (a.x + a.w > b.x) &&
  decide (a.y < b.y + b.h) && decide (a.y + a.h > b.y)

/-- Translation of GameRuntime.find_entities: alive entities whose name or
type equals the selector. -/
def find_entities (s : RState) (name_or_type : String) : List Entity :=
  s.entities.filter (fun e => e.alive && (e.name == name_or_type || e.typ == name_or_type))

/-- Translation of GameRuntime.compare.  Python == and != between a number
and a string return False and True; the four order comparisons raise
TypeError, which is the error case here; an unknown operator returns
False. -/
def compare (a : ℚ) (op : String) (b : PValue) : Except Unit Bool :=
  if op == "==" then .ok (match b with | .num q => decide (a = q) | .str _ => false)
  else if op == "!=" then .ok (match b with | .num q => decide (a ≠ q) | .str _ => true)
  else if op == "<" then (match b with | .num q => .ok (decide (a < q)) | .str _ => .error ())
  else if op == "<=" then (match b with | .num q => .ok (decide (a ≤ q)) | .str _ => .error ())
  else if op == ">" then (match b with | .num q => .ok (decide (a > q)) | .str _ => .error ())
  else if op == ">=" then (match b with | .num q => .ok (decide (a ≥ q)) | .str _ => .error ())
  else .ok false

/-- Python float modulus for a nonzero divisor: a % n = a - n * floor(a / n). -/
def pymod (a n : ℚ) : ℚ := a - n * ⌊a / n⌋

/-- Translation of GameRuntime.eval_condition.  Returns the raw result and
the (possibly updated) condition kind, since Once writes its fired flag
onto the condition at evaluation time.  The Every N ms branch raises on a
zero period (ZeroDivisionError) or a non-numeric one (TypeError); Compare
counter propagates the TypeError of compare. -/
def eval_condition (s : RState) (k : CondKind) : Except Unit (Bool × CondKind) :=
  match k with
  | .always => .ok (true, k)
  | .never => .ok (false, k)
  | .once fired => if fired then .ok (false, k) else .ok (true, .once true)
  | .atStartOfFrame => .ok (s.frameStarted, k)
  | .keyPressed key => .ok (s.keys.contains key, k)
  | .everyNMs v =>
    match v with
    | .str _ => .error ()
    | .num n =>
      if n = 0 then .error ()
      else .ok (decide (pymod ((s.tick * s.frameMs : ℕ) : ℚ) n < (s.frameMs : ℚ)), k)
  | .collidesWith target other =>
    let src := find_entities s target
    let tgt := find_entities s other
    .ok (src.any (fun a => tgt.any (fun b => decide (a.id ≠ b.id) && aabb_overlap a b)), k)
  | .compareCounter target op value => do
    let ents := find_entities s target
    let r ← List.anyM (fun (e : Entity) => compare e.counterValue op value) ents
    .ok (r, k)
  | .mouseClicked => .ok (s.mouseDown, k)
  | .outOfPlayfield target =>
    let frame := s.frames.getD s.frameIdx default
    let ents := find_entities s target
    .ok (ents.any (fun e =>
      decide (e.x + e.w < -50) || decide (e.x > frame.width + 50) ||
      decide (e.y + e.h < -50) || decide (e.y > frame.height + 50)), k)
  | .unknownCond => .ok (false, k)

/-- Helper shared by the targeted branches of exec_action: the source
first collects find_entities(target) and then mutates each element in
place, which is the same as mapping the mutation over every entity
matching the selector predicate. -/
def targetMap (s : RState) (sel : String) (f : Entity → Entity) : RState :=
  { s with entities := s.entities.map (fun e =>
      if e.alive && (e.name == sel || e.typ == sel) then f e else e) }

/-- Translation of GameRuntime.exec_action. -/
def exec_action (s : RState) (a : Act) : RState :=
  match a with
  | .destroy t => targetMap s t (fun e => { e with alive := false })
  | .setPosition t px py =>
    targetMap s t (fun e => { e with x := px.getD e.x, y := py.getD e.y })
  | .setX t v => targetMap s t (fun e => { e with x := v })
  | .setY t v => targetMap s t (fun e => { e with y := v })
  | .setSpeed t v => targetMap s t (fun e => { e with speed := v })
  | .addToCounter t v => targetMap s t (fun e => { e with counterValue := e.counterValue + v })
  | .setCounterTo t v => targetMap s t (fun e => { e with counterValue := v })
  | .addToScore v => { s with score := s.score + v }
  | .setScore v => { s with score := v }
  | .subtractLife => { s with lives := max 0 (s.lives - 1) }
  | .addLife => { s with lives := s.lives + 1 }
  | .goToFrame idx => load_frame s idx
  | .nextFrame => load_frame s ((s.frameIdx : ℤ) + 1)
  | .restartFrame => load_frame s (s.frameIdx : ℤ)
  | .endApplication => { s with running := false }
  | .makeInvisible t => targetMap s t (fun e => { e with visible := false })
  | .makeVisible t => targetMap s t (fun e => { e with visible := true })
  | .flash t dur => targetMap s t (fun e => { e with flashTimer := dur })
  | .bounce t => targetMap s t (fun e => { e with dirX := e.dirX * (-1), dx := e.dx * (-1) })
  | .setGlobalValue idx v =>
    if 0 ≤ idx ∧ idx < (s.global_values.length : ℤ) then
      { s with global_values := s.global_values.set idx.toNat v }
    else s
  | .addToGlobalValue idx v =>
    if 0 ≤ idx ∧ idx < (s.global_values.length : ℤ) then
      { s with global_values :=
          s.global_values.set idx.toNat ((s.global_values.getD idx.toNat 0) + v) }
    else s
  | .createObject typ px py =>
    let obj := make_default_object typ px py s.nextId
    let obj := { obj with
      dx := 0, dy := 0, grounded := false, alive := true, flashTimer := 0
      dirX := 1, gravity := false }
    { s with entities := s.entities ++ [obj], nextId := s.nextId + 1 }
  | .unknownAct => s

/-- Write an updated condition back into the runtime frames list at the
given frame, group and condition index: the explicit form of the in-place
dict mutation performed by the Once branch of eval_condition. -/
def setCond (s : RState) (fidx gidx cidx : ℕ) (c : Condition) : RState :=
  let frame := s.frames.getD fidx default
  let g := frame.events.getD gidx default
  let g2 := { g with conditions := g.conditions.set cidx c }
  let frame2 := { frame with events := frame.events.set gidx g2 }
  { s with frames := s.frames.set fidx frame2 }

/-- The condition loop of process_events for one group: each condition is
evaluated in order (its updated kind is written back), its result negated
if the negated flag is set, and evaluation short-circuits on the first
false.  Returns whether all conditions held. -/
def runConds (fidx gidx : ℕ) : List Condition → ℕ → RState → Except Unit (Bool × RState)
  | [], _, s => .ok (true, s)
  | c :: rest, cidx, s => do
    let (raw, k2) ← eval_condition s c.kind
    let s := setCond s fidx gidx cidx { c with kind := k2 }
    let met := if c.negated then !raw else raw
    if met then runConds fidx gidx rest (cidx + 1) s
    else .ok (false, s)

/-- One iteration of the group loop of process_events: an inactive group
is skipped entirely; otherwise the conditions run, and the actions run
only when all conditions held AND the condition list is non-empty
(group.get("conditions") is falsy on an empty list). -/
def process_group (fidx gidx : ℕ) (s : RState) : Except Unit RState :=
  let g := (s.frames.getD fidx default).events.getD gidx default
  if !g.active then .ok s
  else do
    let (allMet, s2) ← runConds fidx gidx g.conditions 0 s
    if allMet && !g.conditions.isEmpty then
      .ok (g.actions.foldl exec_action s2)
    else .ok s2

/-- Translation of GameRuntime.process_events: the group list of the frame
captured at tick start is iterated by index, so a frame transition
performed by an action mid-pass does not change which groups finish the
pass (the source keeps iterating the captured frame dict). -/
def process_events (fidx : ℕ) (s : RState) : Except Unit RState :=
  (List.range ((s.frames.getD fidx default).events.length)).foldlM
    (fun s gidx => process_group fidx gidx s) s

/-- Lookup of the first live-list entity with the given id: the explicit
form of holding a dict alias from a captured sublist. -/
def findId (s : RState) (i : ℕ) : Option Entity :=
  s.entities.find? (fun e => e.id == i)

/-- Apply a mutation to the first entity with the given id: the explicit
form of in-place mutation through a captured alias. -/
def mutById : List Entity → ℕ → (Entity → Entity) → List Entity
  | [], _, _ => []
  | e :: rest, i, f => if e.id = i then f e :: rest else e :: mutById rest i f

/-- The X-axis collision resolution loop of the Player branch of
update_physics: for each solid (excluding self) overlapping after the
horizontal move, push to the near edge along the direction of travel and
zero the horizontal velocity. -/
def resolveX (s : RState) (solidIds : List ℕ) (e : Entity) : Entity :=
  solidIds.foldl (fun e sid =>
    if sid = e.id then e
    else match findId s sid with
      | none => e
      | some sol =>
        if aabb_overlap e sol then
          let e := if e.dx > 0 then { e with x := sol.x - e.w }
                   else if e.dx < 0 then { e with x := sol.x + sol.w }
                   else e
          { e with dx := 0 }
        else e) e

/-- The Y-axis collision resolution loop of the Player branch of
update_physics: downward resolution grounds the entity and zeroes dy,
upward resolution only zeroes dy. -/
def resolveY (s : RState) (solidIds : List ℕ) (e : Entity) : Entity :=
  solidIds.foldl (fun e sid =>
    if sid = e.id then e
    else match findId s sid with
      | none => e
      | some sol =>
        if aabb_overlap e sol then
          if e.dy > 0 then { e with y := sol.y - e.h, dy := 0, grounded := true }
          else if e.dy < 0 then { e with y := sol.y + sol.h, dy := 0 }
          else e
        else e) e

/-- The Player movement branch of update_physics. -/
def playerStep (s : RState) (fw fh : ℚ) (solidIds : List ℕ) (e : Entity) : Entity :=
  let spd := e.speed
  let e :=
    if s.keys.contains "Left" then { e with dx := -spd }
    else if s.keys.contains "Right" then { e with dx := spd }
    else
      let d := e.dx * (7/10)
      { e with dx := if |d| < 1/2 then 0 else d }
  let e :=
    if (s.keys.contains "Up" || s.keys.contains "space") && e.grounded then
      { e with dy := -12, grounded := false }
    else e
  let e := { e with dy := e.dy + 3/5 }
  let e := if e.dy > (15 : ℚ) then { e with dy := 15 } else e
  let e := { e with x := e.x + e.dx }
  let e := resolveX s solidIds e
  let e := { e with y := e.y + e.dy, grounded := false }
  let e := resolveY s solidIds e
  let e := if e.y > fh + 50 then { e with y := 0, dy := 0 } else e
  { e with x := clamp e.x (-e.w) fw }

/-- The Bouncing movement branch of update_physics. -/
def bouncingStep (s : RState) (fw : ℚ) (solidIds : List ℕ) (e : Entity) : Entity :=
  let spd := e.speed
  let e := { e with x := e.x + spd * e.dirX }
  let e := if e.x ≤ (0 : ℚ) ∨ fw ≤ e.x + e.w then { e with dirX := e.dirX * (-1) } else e
  solidIds.foldl (fun e sid =>
    if sid = e.id then e
    else match findId s sid with
      | none => e
      | some sol =>
        if aabb_overlap e sol then
          let e := { e with dirX := e.dirX * (-1) }
          { e with x := e.x + spd * e.dirX * 2 }
        else e) e

/-- The 8Dir movement branch of update_physics. -/
def eightDirStep (s : RState) (e : Entity) : Entity :=
  let spd := e.speed
  let dx := (if s.keys.contains "Left" then -spd else 0) +
            (if s.keys.contains "Right" then spd else 0)
  let dy := (if s.keys.contains "Up" then -spd else 0) +
            (if s.keys.contains "Down" then spd else 0)
  { e with x := e.x + dx, y := e.y + dy }

/-- Per-entity body of the update_physics loop: dispatch on the movement
tag (unknown tags are no-ops), then decrement a positive flash timer. -/
def physEntity (s : RState) (fw fh : ℚ) (solidIds : List ℕ) (e : Entity) : Entity :=
  let e2 :=
    if e.movement == "Player" then playerStep s fw fh solidIds e
    else if e.movement == "Bouncing" then bouncingStep s fw solidIds e
    else if e.movement == "8Dir" then eightDirStep s e
    else e
  if e2.flashTimer > 0 then { e2 with flashTimer := e2.flashTimer - 1 } else e2

/-- Translation of GameRuntime.update_physics: the solids list is captured
once (as aliases, hence by id here), then each live entity is advanced in
list order, committing its update before the next entity runs. -/
def update_physics (s : RState) : RState :=
  let frame := s.frames.getD s.frameIdx default
  let fw := frame.width
  let fh := frame.height
  let solidIds := (s.entities.filter (fun e => e.alive && e.solid)).map (fun e => e.id)
  (List.range s.entities.length).foldl (fun s i =>
    match s.entities.get? i with
    | none => s
    | some e =>
      if !e.alive then s
      else { s with entities := s.entities.set i (physEntity s fw fh solidIds e) }) s

/-- The dead-entity pruning step of game_loop: the live list is replaced
by its alive-only filter, exactly once per tick. -/
def prune_dead (s : RState) : RState :=
  { s with entities := s.entities.filter (fun e => e.alive) }

/-- One Player x Coin iteration of the built-in coin check in game_loop:
on overlap the score increases by the coin score value and a
destroy-on-collect coin is marked dead. -/
def coinStep (s : RState) (pid cid : ℕ) : RState :=
  match findId s pid, findId s cid with
  | some p, some c =>
    if aabb_overlap p c then
      let s := { s with score := s.score + c.scoreValue }
      if c.destroyOnCollect then
        { s with entities := mutById s.entities cid (fun e => { e with alive := false }) }
      else s
    else s
  | _, _ => s

/-- The nested Player x Coin loops of game_loop. -/
def coinPhase (pids cids : List ℕ) (s : RState) : RState :=
  pids.foldl (fun s pid => cids.foldl (fun s cid => coinStep s pid cid) s) s

/-- One Player x Enemy iteration of the built-in enemy check in game_loop:
a falling player whose bottom edge minus the 10-unit tolerance is above
the enemy top edge stomps it (enemy dead, bounce dy := -8, score + 200);
otherwise the player is hurt (lives - 1, respawn at (50,50) with dy := 0,
session closed when lives reach zero or less). -/
def enemyStep (s : RState) (pid eid : ℕ) : RState :=
  match findId s pid, findId s eid with
  | some p, some en =>
    if aabb_overlap p en then
      if p.dy > 0 ∧ p.y + p.h - 10 < en.y then
        let s := { s with entities := mutById s.entities eid (fun e => { e with alive := false }) }
        let s := { s with entities := mutById s.entities pid (fun e => { e with dy := -8 }) }
        { s with score := s.score + 200 }
      else
        let s := { s with lives := s.lives - 1 }
        let s := { s with entities := mutById s.entities pid (fun e => { e with x := 50, y := 50, dy := 0 }) }
        if s.lives ≤ 0 then { s with running := false } else s
    else s
  | _, _ => s

/-- The nested Player x Enemy loops of game_loop. -/
def enemyPhase (pids eids : List ℕ) (s : RState) : RState :=
  pids.foldl (fun s pid => eids.foldl (fun s eid => enemyStep s pid eid) s) s

/-- The built-in collision consequence block of game_loop: players and
coins are collected before the coin loop, enemies only after it, exactly
as in the source. -/
def builtin_collisions (s : RState) : RState :=
  let playerIds := ((s.entities.filter (fun e => e.typ == "Player" && e.alive)).map (fun e => e.id))
  let coinIds := ((s.entities.filter (fun e => e.typ == "Coin" && e.alive)).map (fun e => e.id))
  let s := coinPhase playerIds coinIds s
  let enemyIds := ((s.entities.filter (fun e => e.typ == "Enemy" && e.alive)).map (fun e => e.id))
  enemyPhase playerIds enemyIds s

/-- Translation of one invocation of GameRuntime.game_loop (one tick):
when running and not paused, the captured frame rules run, then physics,
then the dead-entity prune, then the built-in collision consequences, then
(after the render snapshot, which has no simulation effect) the
frame-started flag is cleared, the tick counter advances and the edge key
sets are cleared.  An exception raised inside the tick propagates. -/
def game_loop (s : RState) : Except Unit RState :=
  if !s.running then .ok s
  else if s.paused then .ok s
  else do
    let fidx := s.frameIdx
    let s1 ← process_events fidx s
    let s2 := update_physics s1
    let s3 := prune_dead s2
    let s4 := builtin_collisions s3
    .ok { s4 with frameStarted := false, tick := s4.tick + 1 }

/-
Concrete fixture states used by the counterexamples and witnesses below.
-/

/-- The pair of an entity that the built-in consequence phases never change:
its id and its type tag. -/
def pairKey (e : Entity) : ℕ × String := (e.id, e.typ)

/-- C1 counterexample fixture: a single frame whose only rule is
[Once] implies Add to score 100. -/
def C1base : RState :=
  { frames := [ { objects := []
                  events := [ { conditions := [ { kind := .once false } ]
                                actions := [ .addToScore 100 ] } ] } ] }

/-- C1 counterexample start state. -/
def C1s0 : RState := load_frame C1base 0

/-- C2 counterexample fixture player: a Player-movement entity that will fall
onto the enemy this tick. -/
def C2P : Entity := { id := 1, typ := "Player", name := "P", movement := "Player",
                      x := 0, y := 0, w := 32, h := 32, speed := 5 }

/-- C2 counterexample fixture enemy. -/
def C2E : Entity := { id := 2, typ := "Enemy", name := "E", movement := "Static",
                      x := 0, y := 24, w := 32, h := 32 }

/-- C2 counterexample base project: one frame, the two entities, no rules. -/
def C2base : RState := { frames := [ { objects := [C2P, C2E] } ] }

/-- C2 counterexample start state. -/
def C2s0 : RState := load_frame C2base 0

/-- C2 witness result state. -/
def C2res : RState := (game_loop C2s0).toOption.getD default

/-- C3 counterexample fixture: scene 0 has the rule [Always] implies
Go to frame 1; scene 1 has the rule [AtStartOfFrame] implies Add to score
100 and no entities. -/
def C3base : RState :=
  { frames := [ { events := [ { conditions := [ { kind := .always } ]
                                actions := [ .goToFrame 1 ] } ] },
                { events := [ { conditions := [ { kind := .atStartOfFrame } ]
                                actions := [ .addToScore 100 ] } ] } ] }

/-- C3 counterexample start state. -/
def C3s0 : RState := load_frame C3base 0

/-- C3 witness fixture: a single empty frame. -/
def C3Wbase : RState := { frames := [ {} ] }

/-- C3 witness state after the session-start load. -/
def C3Ws : RState := load_frame C3Wbase 0

/-- C3 witness result state after one tick. -/
def C3Wres : RState := (game_loop C3Ws).toOption.getD default

/-- C4 counterexample fixture: one alive entity with a non-empty name and type. -/
def C4s : RState := { entities := [ { id := 9, name := "Hero", typ := "Player" } ] }

/-- C5 counterexample fixture: a frame with a Counter entity and a rule whose
condition compares that counter against a non-numeric value with an order
operator. -/
def C5base : RState :=
  { frames := [ { objects := [ { id := 3, typ := "Counter", name := "c" } ]
                  events := [ { conditions :=
                                  [ { kind := .compareCounter "Counter" "<" (.str "high") } ]
                                actions := [ .addToScore 1 ] } ] } ] }

/-- C5 counterexample start state. -/
def C5s0 : RState := load_frame C5base 0

/-- C6 witness fixture: a state whose only group is active with no conditions. -/
def W6s : RState :=
  { frames := [ { events := [ { active := true, conditions := [], actions := [ .addToScore 5 ] } ] } ] }

/-- C7 witness fixture: a player falling onto an enemy from above. -/
def W7s : RState :=
  { entities := [ { id := 1, typ := "Player", dy := 5, x := 0, y := 0, w := 32, h := 32 },
                  { id := 2, typ := "Enemy", x := 0, y := 24, w := 32, h := 32 } ] }

/-- C7 witness player. -/
def W7p : Entity := { id := 1, typ := "Player", dy := 5, x := 0, y := 0, w := 32, h := 32 }

/-- C7 witness enemy. -/
def W7e : Entity := { id := 2, typ := "Enemy", x := 0, y := 24, w := 32, h := 32 }

/-- C8 witness player: at rest, grounded, exactly on top of the platform. -/
def W8p : Entity :=
  { id := 1, movement := "Player", x := 0, y := 68, w := 32, h := 32, grounded := true }

/-- C8 witness platform. -/
def W8plat : Entity := { id := 2, x := 0, y := 100, w := 96, h := 20, solid := true }

/-- C8 witness state. -/
def W8s : RState := { frames := [ {} ], entities := [W8p, W8plat] }

/-- C9 witness fixture: two frames, currently on the last one. -/
def W9s : RState := { frames := [ {}, {} ], frameIdx := 1 }

/-- C10 witness fixture: a side collision with zero lives remaining. -/
def W10s : RState :=
  { lives := 0
    entities := [ { id := 1, typ := "Player", dy := 0, x := 0, y := 0, w := 32, h := 32 },
                  { id := 2, typ := "Enemy", x := 10, y := 10, w := 32, h := 32 } ] }

/-- C10 witness player. -/
def W10p : Entity := { id := 1, typ := "Player", dy := 0, x := 0, y := 0, w := 32, h := 32 }

/-- C10 witness enemy. -/
def W10e : Entity := { id := 2, typ := "Enemy", x := 10, y := 10, w := 32, h := 32 }

/-- C5 witness fixture: one alive Counter entity. -/
def W5s : RState := { entities := [ { id := 3, typ := "Counter", name := "c" } ] }

/-
General lemmas about the by-id mutation and the built-in consequence phases.
-/

lemma find?_mutById_ne (l : List Entity) (i j : ℕ) (f : Entity → Entity)
    (hne : j ≠ i) (hid : ∀ e, (f e).id = e.id) :
    (mutById l i f).find? (fun e => e.id == j) = l.find? (fun e => e.id == j) := by
  induction l with
  | nil => rfl
  | cons a rest ih =>
    by_cases ha : a.id = i
    · rw [mutById, if_pos ha]
      have hfa : ((f a).id == j) = false := by
        simp [hid a, ha, Ne.symm hne]
      have haj : (a.id == j) = false := by
        simp [ha, Ne.symm hne]
      rw [List.find?_cons_of_neg _ (by simp [hfa]), List.find?_cons_of_neg _ (by simp [haj])]
    · rw [mutById, if_neg ha]
      by_cases haj : a.id = j
      · rw [List.find?_cons_of_pos _ (by simp [haj]), List.find?_cons_of_pos _ (by simp [haj])]
      · rw [List.find?_cons_of_neg _ (by simp [haj]), List.find?_cons_of_neg _ (by simp [haj]), ih]

lemma find?_mutById_self (l : List Entity) (i : ℕ) (f : Entity → Entity) (e : Entity)
    (h : l.find? (fun x => x.id == i) = some e) (hid : ∀ x, (f x).id = x.id) :
    (mutById l i f).find? (fun x => x.id == i) = some (f e) := by
  induction l with
  | nil => simp at h
  | cons a rest ih =>
    by_cases ha : a.id = i
    · rw [List.find?_cons_of_pos _ (by simp [ha])] at h
      injection h with h
      subst h
      rw [mutById, if_pos ha, List.find?_cons_of_pos _ (by simp [hid a, ha])]
    · rw [List.find?_cons_of_neg _ (by simp [ha])] at h
      rw [mutById, if_neg ha, List.find?_cons_of_neg _ (by simp [ha])]
      exact ih h

lemma mem_mutById {l : List Entity} {i : ℕ} {f : Entity → Entity} {x : Entity}
    (hx : x ∈ mutById l i f) : x ∈ l ∨ ∃ c, c ∈ l ∧ c.id = i ∧ x = f c := by
  induction l with
  | nil => simp [mutById] at hx
  | cons a rest ih =>
    by_cases ha : a.id = i
    · rw [mutById, if_pos ha] at hx
      rcases List.mem_cons.1 hx with h | h
      · exact Or.inr ⟨a, List.mem_cons_self a rest, ha, h⟩
      · exact Or.inl (List.mem_cons_of_mem a h)
    · rw [mutById, if_neg ha] at hx
      rcases List.mem_cons.1 hx with h | h
      · exact Or.inl (h ▸ List.mem_cons_self a rest)
      · rcases ih h with h1 | ⟨c, hc, hci, hxc⟩
        · exact Or.inl (List.mem_cons_of_mem a h1)
        · exact Or.inr ⟨c, List.mem_cons_of_mem a hc, hci, hxc⟩

lemma map_mutById {l : List Entity} {i : ℕ} {f : Entity → Entity} {g : Entity → ℕ × String}
    (hg : ∀ e, g (f e) = g e) : (mutById l i f).map g = l.map g := by
  induction l with
  | nil => rfl
  | cons a rest ih =>
    by_cases ha : a.id = i
    · rw [mutById, if_pos ha]
      simp [hg a]
    · rw [mutById, if_neg ha]
      simp [ih]

lemma pairKey_kill (e : Entity) : pairKey { e with alive := false } = pairKey e := rfl

lemma pairKey_dy8 (e : Entity) : pairKey { e with dy := -8 } = pairKey e := rfl

lemma coinStep_map_pairKey (s : RState) (pid cid : ℕ) :
    (coinStep s pid cid).entities.map pairKey = s.entities.map pairKey := by
  unfold coinStep
  cases h1 : findId s pid with
  | none => rfl
  | some p =>
    cases h2 : findId s cid with
    | none => rfl
    | some c =>
      dsimp only
      split
      · split
        · exact map_mutById (fun e => rfl)
        · rfl
      · rfl

lemma enemyStep_map_pairKey (s : RState) (pid eid : ℕ) :
    (enemyStep s pid eid).entities.map pairKey = s.entities.map pairKey := by
  unfold enemyStep
  cases h1 : findId s pid with
  | none => rfl
  | some p =>
    cases h2 : findId s eid with
    | none => rfl
    | some en =>
      dsimp only
      split
      · split
        · exact (map_mutById pairKey_dy8).trans (map_mutById pairKey_kill)
        · split
          · exact map_mutById (fun e => rfl)
          · exact map_mutById (fun e => rfl)
      · rfl

lemma coinStep_dead {s : RState} {pid cid : ℕ} {x : Entity}
    (hx : x ∈ (coinStep s pid cid).entities) (hdead : x.alive = false) :
    (∃ c ∈ s.entities, c.alive = false ∧ c.id = x.id) ∨ x.id = cid := by
  unfold coinStep at hx
  rcases h1 : findId s pid with _ | p <;> rw [h1] at hx
  · exact Or.inl ⟨x, hx, hdead, rfl⟩
  rcases h2 : findId s cid with _ | c <;> rw [h2] at hx
  · exact Or.inl ⟨x, hx, hdead, rfl⟩
  dsimp only at hx
  by_cases hov : aabb_overlap p c = true
  · rw [if_pos hov] at hx
    by_cases hdc : c.destroyOnCollect = true
    · rw [if_pos hdc] at hx
      rcases mem_mutById hx with h | ⟨c2, hc2, hci, hxc⟩
      · exact Or.inl ⟨x, h, hdead, rfl⟩
      · subst hxc
        exact Or.inr hci
    · rw [if_neg hdc] at hx
      exact Or.inl ⟨x, hx, hdead, rfl⟩
  · rw [if_neg hov] at hx
    exact Or.inl ⟨x, hx, hdead, rfl⟩

lemma enemyStep_dead {s : RState} {pid eid : ℕ} {x : Entity}
    (hx : x ∈ (enemyStep s pid eid).entities) (hdead : x.alive = false) :
    (∃ c ∈ s.entities, c.alive = false ∧ c.id = x.id) ∨ x.id = eid := by
  unfold enemyStep at hx
  rcases h1 : findId s pid with _ | p <;> rw [h1] at hx
  · exact Or.inl ⟨x, hx, hdead, rfl⟩
  rcases h2 : findId s eid with _ | en <;> rw [h2] at hx
  · exact Or.inl ⟨x, hx, hdead, rfl⟩
  dsimp only at hx
  by_cases hov : aabb_overlap p en = true
  · rw [if_pos hov] at hx
    by_cases hst : p.dy > 0 ∧ p.y + p.h - 10 < en.y
    · rw [if_pos hst] at hx
      rcases mem_mutById hx with h | ⟨c2, hc2, hci, hxc⟩
      · rcases mem_mutById h with h3 | ⟨c3, hc3, hci3, hxc3⟩
        · exact Or.inl ⟨x, h3, hdead, rfl⟩
        · subst hxc3
          exact Or.inr hci3
      · subst hxc
        rcases mem_mutById hc2 with h3 | ⟨c3, hc3, hci3, hxc3⟩
        · exact Or.inl ⟨c2, h3, hdead, rfl⟩
        · subst hxc3
          exact Or.inr hci3
    · rw [if_neg hst] at hx
      by_cases hlv : s.lives - 1 ≤ 0
      · rw [if_pos hlv] at hx
        rcases mem_mutById hx with h | ⟨c2, hc2, hci, hxc⟩
        · exact Or.inl ⟨x, h, hdead, rfl⟩
        · subst hxc
          exact Or.inl ⟨c2, hc2, hdead, hci ▸ rfl⟩
      · rw [if_neg hlv] at hx
        rcases mem_mutById hx with h | ⟨c2, hc2, hci, hxc⟩
        · exact Or.inl ⟨x, h, hdead, rfl⟩
        · subst hxc
          exact Or.inl ⟨c2, hc2, hdead, hci ▸ rfl⟩
  · rw [if_neg hov] at hx
    exact Or.inl ⟨x, hx, hdead, rfl⟩

lemma foldl_preserves {P : RState → Prop} (step : RState → ℕ → RState) :
    ∀ (ids : List ℕ), (∀ s i, i ∈ ids → P s → P (step s i)) →
      ∀ s, P s → P (ids.foldl step s) := by
  intro ids
  induction ids with
  | nil => intro _ s hs; exact hs
  | cons i rest ih =>
    intro hstep s hs
    rw [List.foldl_cons]
    exact ih (fun s j hj => hstep s j (List.mem_cons_of_mem i hj))
      (step s i) (hstep s i (List.mem_cons_self i rest) hs)

lemma pair_typ_unique {l : List (ℕ × String)} (h : (l.map Prod.fst).Nodup)
    {a : ℕ} {t1 t2 : String} (h1 : (a, t1) ∈ l) (h2 : (a, t2) ∈ l) : t1 = t2 :=
  congrArg Prod.snd (List.inj_on_of_nodup_map h h1 h2 rfl)

lemma builtin_dead_typ (t : RState)
    (hall : ∀ x ∈ t.entities, x.alive = true)
    (hnd : (t.entities.map (fun e => e.id)).Nodup) :
    ∀ x ∈ (builtin_collisions t).entities, x.alive = false →
      x.typ = "Enemy" ∨ x.typ = "Coin" := by
  have hndp : ((t.entities.map pairKey).map Prod.fst).Nodup := by
    rw [List.map_map]
    exact hnd
  simp only [builtin_collisions]
  intro x hx hdead
  set pids := (List.filter (fun e => e.typ == "Player" && e.alive) t.entities).map
    (fun e => e.id) with hpids
  set cids := (List.filter (fun e => e.typ == "Coin" && e.alive) t.entities).map
    (fun e => e.id) with hcids
  set s4 := coinPhase pids cids t with hs4
  set eids := (List.filter (fun e => e.typ == "Enemy" && e.alive) s4.entities).map
    (fun e => e.id) with heids
  have hpairs4 : s4.entities.map pairKey = t.entities.map pairKey := by
    refine foldl_preserves (P := fun u => u.entities.map pairKey = t.entities.map pairKey)
      _ pids ?_ t rfl
    intro s pid _ hP
    refine foldl_preserves (P := fun u => u.entities.map pairKey = t.entities.map pairKey)
      _ cids ?_ s hP
    intro s2 cid _ hP2
    rw [coinStep_map_pairKey, hP2]
  have hP4 : ∀ y ∈ s4.entities, y.alive = false → y.id ∈ cids := by
    refine foldl_preserves (P := fun u => ∀ y ∈ u.entities, y.alive = false → y.id ∈ cids)
      _ pids ?_ t ?_
    · intro s pid _ hP
      refine foldl_preserves
        (P := fun u => ∀ y ∈ u.entities, y.alive = false → y.id ∈ cids) _ cids ?_ s hP
      intro s2 cid hcid hP2 y hy hyd
      rcases coinStep_dead hy hyd with ⟨c, hc, hcd, hci⟩ | h
      · have := hP2 c hc hcd
        rwa [hci] at this
      · rw [h]; exact hcid
    · intro y hy hyd
      rw [hall y hy] at hyd
      cases hyd
  have hP5 : ∀ y ∈ (enemyPhase pids eids s4).entities, y.alive = false →
      y.id ∈ cids ++ eids := by
    refine foldl_preserves
      (P := fun u => ∀ y ∈ u.entities, y.alive = false → y.id ∈ cids ++ eids)
      _ pids ?_ s4 ?_
    · intro s pid _ hP
      refine foldl_preserves
        (P := fun u => ∀ y ∈ u.entities, y.alive = false → y.id ∈ cids ++ eids)
        _ eids ?_ s hP
      intro s2 eid heid hP2 y hy hyd
      rcases enemyStep_dead hy hyd with ⟨c, hc, hcd, hci⟩ | h
      · have := hP2 c hc hcd
        rwa [hci] at this
      · rw [h]; exact List.mem_append_right cids heid
    · intro y hy hyd
      exact List.mem_append_left eids (hP4 y hy hyd)
  have hpairs5 : (enemyPhase pids eids s4).entities.map pairKey =
      t.entities.map pairKey := by
    rw [← hpairs4]
    refine foldl_preserves
      (P := fun u => u.entities.map pairKey = s4.entities.map pairKey) _ pids ?_ s4 rfl
    intro s pid _ hP
    refine foldl_preserves
      (P := fun u => u.entities.map pairKey = s4.entities.map pairKey) _ eids ?_ s hP
    intro s2 eid _ hP2
    rw [enemyStep_map_pairKey, hP2]
  have hxpair : pairKey x ∈ t.entities.map pairKey := by
    rw [← hpairs5]
    exact List.mem_map_of_mem pairKey hx
  rcases List.mem_append.1 (hP5 x hx hdead) with hc | he
  · rcases List.mem_map.1 hc with ⟨c, hcf, hcid⟩
    have hcmem := List.mem_of_mem_filter hcf
    have hctyp : c.typ = "Coin" := by
      have := List.of_mem_filter hcf
      simp only [Bool.and_eq_true, beq_iff_eq] at this
      exact this.1
    have hcpair : pairKey c ∈ t.entities.map pairKey := List.mem_map_of_mem pairKey hcmem
    have : x.typ = c.typ := by
      refine pair_typ_unique hndp ?_ hcpair
      have : pairKey x = (c.id, x.typ) := by
        simp only [pairKey, hcid]
      rw [← this]
      exact hxpair
    rw [this, hctyp]
    exact Or.inr rfl
  · rcases List.mem_map.1 he with ⟨en, henf, henid⟩
    have henmem := List.mem_of_mem_filter henf
    have hentyp : en.typ = "Enemy" := by
      have := List.of_mem_filter henf
      simp only [Bool.and_eq_true, beq_iff_eq] at this
      exact this.1
    have henpair : pairKey en ∈ t.entities.map pairKey := by
      rw [← hpairs4]
      exact List.mem_map_of_mem pairKey henmem
    have : x.typ = en.typ := by
      refine pair_typ_unique hndp ?_ henpair
      have : pairKey x = (en.id, x.typ) := by
        simp only [pairKey, henid]
      rw [← this]
      exact hxpair
    rw [this, hentyp]
    exact Or.inl rfl

/-
The claim theorems, counterexamples and witnesses.
-/

/-- C1: the claim that the Once fired state is reset by a scene (re)load is
false: the rule fires on the first tick (score 100), and after reloading the
scene with load_frame and ticking again the score is still 100, because the
fired flag survives the reload. -/
theorem once_not_reset_on_reload_cex :
    (game_loop C1s0).map (fun s => s.score) = .ok 100 ∧
    ((game_loop C1s0).bind (fun t => game_loop (load_frame t 0))).map (fun s => s.score) =
      .ok 100 := by
  constructor <;>
    norm_num [C1s0, C1base, load_frame, game_loop, process_events, process_group, runConds,
      eval_condition, setCond, exec_action, update_physics, prune_dead, builtin_collisions,
      coinPhase, enemyPhase, coinStep, enemyStep, find_entities, findId, targetMap,
      Bind.bind, Except.bind, Except.map, Pure.pure, Except.pure, List.foldlM,
      List.range_succ, List.filter, physEntity, List.getElem?_cons_zero,
      List.getElem?_cons_succ, Option.getD]

/-- C1 (corrected): a Once condition fires true exactly once (its fired flag is
written at first evaluation and it returns false ever after), but the flag
lives in the runtime frames list, which load_frame never touches, so a scene
(re)load does not reset it. -/
theorem once_semantics_and_reload (s : RState) (idx : ℤ) :
    eval_condition s (.once false) = .ok (true, .once true) ∧
    eval_condition s (.once true) = .ok (false, .once true) ∧
    (load_frame s idx).frames = s.frames := by
  refine ⟨rfl, rfl, ?_⟩
  unfold load_frame
  split
  · rfl
  · rfl

set_option maxHeartbeats 3200000 in
set_option maxRecDepth 8000 in
/-- C2: the claim that the built-in consequence rules run before pruning is
false: after one tick in which the player stomps the enemy, the dead enemy is
still in the live entity list (2 entities, 1 dead, score 200); the claimed
order would have pruned it within the same tick.  The next tick prune then
removes it. -/
theorem builtins_after_prune_cex :
    (game_loop C2s0).map
      (fun s => (s.entities.length, s.entities.countP (fun e => !e.alive), s.score)) =
      .ok (2, 1, 200) ∧
    ((game_loop C2s0).bind game_loop).map (fun s => s.entities.length) = .ok 1 := by
  constructor <;> (
    try simp [C2s0, C2base, C2P, C2E, load_frame, game_loop, process_events, process_group,
      runConds, eval_condition, setCond, exec_action, update_physics, prune_dead,
      builtin_collisions, coinPhase, enemyPhase, coinStep, enemyStep, find_entities, findId,
      physEntity, playerStep, resolveX, resolveY, clamp, aabb_overlap, mutById,
      Bind.bind, Except.bind, Except.map, Pure.pure, Except.pure, List.foldlM,
      List.range_succ, List.filter, Option.getD]
    try norm_num
    try simp [C2s0, C2base, C2P, C2E, load_frame, game_loop, process_events, process_group,
      runConds, eval_condition, setCond, exec_action, update_physics, prune_dead,
      builtin_collisions, coinPhase, enemyPhase, coinStep, enemyStep, find_entities, findId,
      physEntity, playerStep, resolveX, resolveY, clamp, aabb_overlap, mutById,
      Bind.bind, Except.bind, Except.map, Pure.pure, Except.pure, List.foldlM,
      List.range_succ, List.filter, Option.getD]
    try norm_num
    try simp [C2s0, C2base, C2P, C2E, load_frame, game_loop, process_events, process_group,
      runConds, eval_condition, setCond, exec_action, update_physics, prune_dead,
      builtin_collisions, coinPhase, enemyPhase, coinStep, enemyStep, find_entities, findId,
      physEntity, playerStep, resolveX, resolveY, clamp, aabb_overlap, mutById,
      Bind.bind, Except.bind, Except.map, Pure.pure, Except.pure, List.foldlM,
      List.range_succ, List.filter, Option.getD]
    try norm_num
    try simp [C2s0, C2base, C2P, C2E, load_frame, game_loop, process_events, process_group,
      runConds, eval_condition, setCond, exec_action, update_physics, prune_dead,
      builtin_collisions, coinPhase, enemyPhase, coinStep, enemyStep, find_entities, findId,
      physEntity, playerStep, resolveX, resolveY, clamp, aabb_overlap, mutById,
      Bind.bind, Except.bind, Except.map, Pure.pure, Except.pure, List.foldlM,
      List.range_succ, List.filter, Option.getD]
    try norm_num)

/-- C2 (amended): within a tick, pruning runs exactly once, after rule actions
and physics but BEFORE the built-in consequence rules, so every entity still
marked dead at the end of a completed tick was killed by the built-in checks
and is an Enemy or a Coin (entities killed by rules or physics are already
gone), under the data-model invariant that live entity ids are unique. -/
theorem prune_before_builtins (s s1 s2 : RState)
    (hrun : s.running = true) (hpause : s.paused = false)
    (hpe : process_events s.frameIdx s = .ok s1)
    (hnd : ((prune_dead (update_physics s1)).entities.map (fun e => e.id)).Nodup)
    (hgl : game_loop s = .ok s2) :
    ∀ x ∈ s2.entities, x.alive = false → x.typ = "Enemy" ∨ x.typ = "Coin" := by
  simp only [game_loop, hrun, hpause, hpe, Bool.not_true, Bool.false_eq_true,
    if_false, Bind.bind, Except.bind, Except.ok.injEq] at hgl
  have hent : s2.entities = (builtin_collisions (prune_dead (update_physics s1))).entities := by
    rw [← hgl]
  rw [hent]
  refine builtin_dead_typ (prune_dead (update_physics s1)) ?_ hnd
  intro x hx
  exact (List.mem_filter.1 hx).2

set_option maxHeartbeats 3200000 in
set_option maxRecDepth 8000 in
/-- C2 witness: the amended ordering property applied to the concrete stomp
fixture, whose hypotheses (running, unpaused, rule pass succeeds, unique ids
after prune) all hold: every post-tick entity is alive or is an Enemy or a
Coin. -/
theorem prune_before_builtins_witness :
    C2res.entities.all (fun x => x.alive || (x.typ == "Enemy" || x.typ == "Coin")) = true := by
  have h := prune_before_builtins C2s0 C2s0 C2res rfl rfl
    (by
      try simp [C2s0, C2base, C2P, C2E, load_frame, process_events, Pure.pure, Except.pure,
      List.foldlM, List.range_succ]
      try norm_num
      try simp [C2s0, C2base, C2P, C2E, load_frame, process_events, Pure.pure, Except.pure,
      List.foldlM, List.range_succ]
      try norm_num
      try simp [C2s0, C2base, C2P, C2E, load_frame, process_events, Pure.pure, Except.pure,
      List.foldlM, List.range_succ]
      try norm_num)
    (by
      try simp [C2s0, C2base, C2P, C2E, load_frame, process_events, process_group,
      runConds, eval_condition, setCond, exec_action, update_physics, prune_dead,
      physEntity, playerStep, resolveX, resolveY, clamp, aabb_overlap,
      List.range_succ, List.filter, Option.getD]
      try norm_num
      try simp [C2s0, C2base, C2P, C2E, load_frame, process_events, process_group,
      runConds, eval_condition, setCond, exec_action, update_physics, prune_dead,
      physEntity, playerStep, resolveX, resolveY, clamp, aabb_overlap,
      List.range_succ, List.filter, Option.getD]
      try norm_num
      try simp [C2s0, C2base, C2P, C2E, load_frame, process_events, process_group,
      runConds, eval_condition, setCond, exec_action, update_physics, prune_dead,
      physEntity, playerStep, resolveX, resolveY, clamp, aabb_overlap,
      List.range_succ, List.filter, Option.getD]
      try norm_num)
    (by
      try simp [C2res, C2s0, C2base, C2P, C2E, load_frame, game_loop, process_events,
      process_group, runConds, eval_condition, setCond, exec_action, update_physics,
      prune_dead, builtin_collisions, coinPhase, enemyPhase, coinStep, enemyStep,
      find_entities, findId, physEntity, playerStep, resolveX, resolveY, clamp,
      aabb_overlap, mutById, Bind.bind, Except.bind, Except.map, Pure.pure, Except.pure,
      List.foldlM, List.range_succ, List.filter, Option.getD, Except.toOption]
      try norm_num
      try simp [C2res, C2s0, C2base, C2P, C2E, load_frame, game_loop, process_events,
      process_group, runConds, eval_condition, setCond, exec_action, update_physics,
      prune_dead, builtin_collisions, coinPhase, enemyPhase, coinStep, enemyStep,
      find_entities, findId, physEntity, playerStep, resolveX, resolveY, clamp,
      aabb_overlap, mutById, Bind.bind, Except.bind, Except.map, Pure.pure, Except.pure,
      List.foldlM, List.range_succ, List.filter, Option.getD, Except.toOption]
      try norm_num
      try simp [C2res, C2s0, C2base, C2P, C2E, load_frame, game_loop, process_events,
      process_group, runConds, eval_condition, setCond, exec_action, update_physics,
      prune_dead, builtin_collisions, coinPhase, enemyPhase, coinStep, enemyStep,
      find_entities, findId, physEntity, playerStep, resolveX, resolveY, clamp,
      aabb_overlap, mutById, Bind.bind, Except.bind, Except.map, Pure.pure, Except.pure,
      List.foldlM, List.range_succ, List.filter, Option.getD, Except.toOption]
      try norm_num)

  rw [List.all_eq_true]
  intro x hx
  by_cases hal : x.alive = true
  · simp [hal]
  · have h2 := h x hx (by simpa using hal)
    rcases h2 with ht | ht <;> simp [ht, hal]

/-- C3: the claim is false for a transition triggered by a rule action
mid-session: at the end of the transition tick the just-started mark is
already cleared and the tick counter is 1, and on the next tick (the first
rule-evaluation tick of scene 1) the AtStartOfFrame rule does not fire, so
the score stays 0. -/
theorem at_start_midsession_cex :
    (game_loop C3s0).map (fun s => (s.frameIdx, s.frameStarted, s.tick)) =
      .ok (1, false, 1) ∧
    ((game_loop C3s0).bind game_loop).map (fun s => (s.frameIdx, s.score, s.tick)) =
      .ok (1, 0, 2) := by
  constructor <;>
    simp [C3s0, C3base, load_frame, game_loop, process_events, process_group, runConds,
      eval_condition, setCond, exec_action, update_physics, prune_dead, builtin_collisions,
      coinPhase, enemyPhase, coinStep, enemyStep, find_entities, findId, targetMap,
      Bind.bind, Except.bind, Except.map, Pure.pure, Except.pure, List.foldlM,
      List.range_succ, List.filter, physEntity, Option.getD]

/-- C3 (amended): load_frame does reset the tick counter and set the
just-started mark (so AtStartOfFrame is true for evaluations between the
load and the end of that tick, in particular for the whole first tick when
the load precedes it, as at session start), but every completed unpaused
tick, including the one whose own rule action performed the transition,
clears the mark and advances the tick counter at its end, so after a
mid-tick transition the new scene observes AtStartOfFrame = false on all of
its full ticks. -/
theorem at_start_of_frame_amended :
    (∀ (s : RState) (idx : ℤ), 0 ≤ idx → idx < (s.frames.length : ℤ) →
      (load_frame s idx).frameStarted = true ∧ (load_frame s idx).tick = 0 ∧
      eval_condition (load_frame s idx) .atStartOfFrame = .ok (true, .atStartOfFrame)) ∧
    (∀ (s s2 : RState), s.running = true → s.paused = false → game_loop s = .ok s2 →
      s2.frameStarted = false ∧
      eval_condition s2 .atStartOfFrame = .ok (false, .atStartOfFrame)) := by
  constructor
  · intro s idx h0 hlen
    have hni : ¬(idx < 0 ∨ (s.frames.length : ℤ) ≤ idx) := by omega
    have hfs : (load_frame s idx).frameStarted = true := by
      unfold load_frame
      rw [if_neg hni]
    refine ⟨hfs, ?_, ?_⟩
    · unfold load_frame
      rw [if_neg hni]
    · simp [eval_condition, hfs]
  · intro s s2 hrun hpause hgl
    cases hpe : process_events s.frameIdx s with
    | error e =>
      simp [game_loop, hrun, hpause, hpe, Bind.bind, Except.bind] at hgl
    | ok s1 =>
      simp only [game_loop, hrun, hpause, hpe, Bool.not_true, Bool.false_eq_true,
        if_false, Bind.bind, Except.bind, Except.ok.injEq] at hgl
      have hfs : s2.frameStarted = false := by rw [← hgl]
      exact ⟨hfs, by simp [eval_condition, hfs]⟩

/-- C3 witness: at session start the loaded scene is marked just started with
tick 0 and AtStartOfFrame evaluates true; after the first tick the mark is
cleared and AtStartOfFrame evaluates false. -/
theorem at_start_of_frame_amended_witness :
    C3Ws.frameStarted = true ∧ C3Ws.tick = 0 ∧
    eval_condition C3Ws .atStartOfFrame = .ok (true, .atStartOfFrame) ∧
    C3Wres.frameStarted = false ∧
    eval_condition C3Wres .atStartOfFrame = .ok (false, .atStartOfFrame) := by
  have h1 := at_start_of_frame_amended.1 C3Wbase 0 (by norm_num) (by norm_num [C3Wbase])
  have h2 := at_start_of_frame_amended.2 C3Ws C3Wres (by rfl) (by rfl) (by
    simp [C3Ws, C3Wbase, load_frame, game_loop, process_events, process_group, runConds,
      eval_condition, setCond, exec_action, update_physics, prune_dead, builtin_collisions,
      coinPhase, enemyPhase, coinStep, enemyStep, find_entities, findId,
      Bind.bind, Except.bind, Except.map, Pure.pure, Except.pure, List.foldlM,
      List.range_succ, List.filter, physEntity, Option.getD, C3Wres, Except.toOption])
  exact ⟨h1.1, h1.2.1, h1.2.2, h2.1, h2.2⟩

/-- C4: the claim that an empty selector matches every alive entity is false:
here one entity is alive yet the empty selector matches nothing. -/
theorem empty_selector_cex :
    find_entities C4s "" = [] ∧ C4s.entities.countP (fun e => e.alive) = 1 := by
  constructor <;> rfl

/-- C4 (corrected): an empty target selector matches exactly the alive entities
whose authored name or type tag is itself the empty string, not every alive
entity. -/
theorem empty_selector_semantics (s : RState) (e : Entity) :
    e ∈ find_entities s "" ↔ e ∈ s.entities ∧ e.alive = true ∧ (e.name = "" ∨ e.typ = "") := by
  simp [find_entities, List.mem_filter, Bool.and_eq_true, Bool.or_eq_true, beq_iff_eq,
    and_assoc]

/-- C5: the claim that a malformed numeric parameter makes the condition
evaluate as failing with no exception is false: a Compare counter condition
ordering a counter against a string raises (TypeError), aborting the whole
tick with an error instead of completing it. -/
theorem malformed_numeric_cex : game_loop C5s0 = .error () := by
  simp [C5s0, C5base, load_frame, game_loop, process_events, process_group, runConds,
    eval_condition, setCond, exec_action, find_entities, compare,
    Bind.bind, Except.bind, Except.map, Pure.pure, Except.pure, List.foldlM,
    List.range_succ, List.filter, List.anyM]

/-- C5 (corrected): equality against a non-numeric value is absorbed (== is
false, != is true, unknown operators are false), but the four order
comparisons raise a TypeError, a zero Every N ms period raises a
ZeroDivisionError, and a Compare counter rule with at least one matching
entity propagates that error out of condition evaluation. -/
theorem malformed_numeric_behavior :
    (∀ (a : ℚ) (b : String),
      compare a "<" (.str b) = .error () ∧ compare a "<=" (.str b) = .error () ∧
      compare a ">" (.str b) = .error () ∧ compare a ">=" (.str b) = .error () ∧
      compare a "==" (.str b) = .ok false ∧ compare a "!=" (.str b) = .ok true) ∧
    (∀ s : RState, eval_condition s (.everyNMs (.num 0)) = .error ()) ∧
    (∀ (s : RState) (t op b : String),
      op ∈ (["<", "<=", ">", ">="] : List String) →
      find_entities s t ≠ [] →
      eval_condition s (.compareCounter t op (.str b)) = .error ()) := by
  refine ⟨fun a b => ⟨rfl, rfl, rfl, rfl, rfl, rfl⟩, fun s => rfl, ?_⟩
  intro s t op b hop hne
  have hcomp : ∀ q : ℚ, compare q op (.str b) = .error () := by
    intro q
    simp only [List.mem_cons, List.not_mem_nil, or_false] at hop
    rcases hop with rfl | rfl | rfl | rfl <;> rfl
  cases hfe : find_entities s t with
  | nil => exact absurd hfe hne
  | cons e rest =>
    simp only [eval_condition, hfe, List.anyM, hcomp, Bind.bind, Except.bind]

/-- C5 witness: the error-raising part of the malformed-parameter behavior at a
concrete state with a matching Counter entity. -/
theorem malformed_numeric_behavior_witness :
    eval_condition W5s (.compareCounter "Counter" "<" (.str "hi")) = .error () :=
  malformed_numeric_behavior.2.2 W5s "Counter" "<" "hi" (by simp)
    (by simp [find_entities, W5s])

/-- C6: a rule group whose condition list is empty never runs its actions:
the group step of the rule engine returns the state unchanged. -/
theorem empty_conditions_never_fire (fidx gidx : ℕ) (s : RState)
    (h : ((s.frames.getD fidx default).events.getD gidx default).conditions = []) :
    process_group fidx gidx s = .ok s := by
  simp only [process_group]
  rw [h]
  split
  · rfl
  · rfl

/-- C6 witness: the empty-condition group of the concrete fixture runs no
action. -/
theorem empty_conditions_never_fire_witness :
    process_group 0 0 W6s = .ok W6s :=
  empty_conditions_never_fire 0 0 W6s rfl

/-- C7: the built-in Player x Enemy consequence. On overlap, a falling player
(positive dy) whose bottom edge minus the 10-unit tolerance is above the enemy
top edge stomps: enemy marked dead, player dy set to -8, score +200, lives and
running untouched. Otherwise the player is hurt: lives decrease by one
(unclamped), score unchanged, player respawns at (50,50) with dy 0, and the
session ends exactly when the resulting lives are zero or below. -/
theorem player_enemy_consequence
    (s : RState) (pid eid : ℕ) (p en : Entity)
    (hp : findId s pid = some p) (hen : findId s eid = some en)
    (hne : pid ≠ eid)
    (hov : aabb_overlap p en = true) :
    (p.dy > 0 ∧ p.y + p.h - 10 < en.y →
      (enemyStep s pid eid).score = s.score + 200 ∧
      (enemyStep s pid eid).lives = s.lives ∧
      (enemyStep s pid eid).running = s.running ∧
      (findId (enemyStep s pid eid) eid).map (fun e => e.alive) = some false ∧
      (findId (enemyStep s pid eid) pid).map (fun e => e.dy) = some (-8)) ∧
    (¬(p.dy > 0 ∧ p.y + p.h - 10 < en.y) →
      (enemyStep s pid eid).lives = s.lives - 1 ∧
      (enemyStep s pid eid).score = s.score ∧
      (findId (enemyStep s pid eid) pid).map (fun e => (e.x, e.y, e.dy)) = some (50, 50, 0) ∧
      (enemyStep s pid eid).running = (if s.lives - 1 ≤ 0 then false else s.running)) := by
  have hp2 : s.entities.find? (fun x => x.id == pid) = some p := hp
  have hen2 : s.entities.find? (fun x => x.id == eid) = some en := hen
  constructor
  · intro hstomp
    have hstep : enemyStep s pid eid =
        { s with
          entities := mutById (mutById s.entities eid (fun e => { e with alive := false }))
            pid (fun e => { e with dy := -8 })
          score := s.score + 200 } := by
      simp only [enemyStep, hp, hen, hov, if_true, if_pos hstomp]
    rw [hstep]
    refine ⟨rfl, rfl, rfl, ?_, ?_⟩
    · show (List.find? (fun x => x.id == eid)
        (mutById (mutById s.entities eid (fun e => { e with alive := false }))
          pid (fun e => { e with dy := -8 }))).map (fun e => e.alive) = some false
      rw [find?_mutById_ne _ pid eid (fun e => { e with dy := -8 }) (Ne.symm hne) (fun e => rfl),
        find?_mutById_self _ eid (fun e => { e with alive := false }) en hen2 (fun e => rfl)]
      rfl
    · show (List.find? (fun x => x.id == pid)
        (mutById (mutById s.entities eid (fun e => { e with alive := false }))
          pid (fun e => { e with dy := -8 }))).map (fun e => e.dy) = some (-8)
      have hp3 : (mutById s.entities eid (fun e => { e with alive := false })).find?
          (fun x => x.id == pid) = some p := by
        rw [find?_mutById_ne _ eid pid (fun e => { e with alive := false }) hne (fun e => rfl)]
        exact hp2
      rw [find?_mutById_self _ pid (fun e => { e with dy := -8 }) p hp3 (fun e => rfl)]
      rfl
  · intro hnstomp
    have hstep : enemyStep s pid eid =
        (if s.lives - 1 ≤ 0 then
          { s with
            entities := mutById s.entities pid (fun e => { e with x := 50, y := 50, dy := 0 })
            lives := s.lives - 1
            running := false }
        else
          { s with
            entities := mutById s.entities pid (fun e => { e with x := 50, y := 50, dy := 0 })
            lives := s.lives - 1 }) := by
      simp only [enemyStep, hp, hen, hov, if_true, if_neg hnstomp]
    rw [hstep]
    split
    · refine ⟨rfl, rfl, ?_, rfl⟩
      show (List.find? (fun x => x.id == pid)
        (mutById s.entities pid (fun e => { e with x := 50, y := 50, dy := 0 }))).map
          (fun e => (e.x, e.y, e.dy)) = some (50, 50, 0)
      rw [find?_mutById_self _ pid (fun e => { e with x := 50, y := 50, dy := 0 }) p hp2 (fun e => rfl)]
      rfl
    · refine ⟨rfl, rfl, ?_, rfl⟩
      show (List.find? (fun x => x.id == pid)
        (mutById s.entities pid (fun e => { e with x := 50, y := 50, dy := 0 }))).map
          (fun e => (e.x, e.y, e.dy)) = some (50, 50, 0)
      rw [find?_mutById_self _ pid (fun e => { e with x := 50, y := 50, dy := 0 }) p hp2 (fun e => rfl)]
      rfl

/-- C7 witness: the stomp case at a concrete overlap. -/
theorem player_enemy_consequence_witness :
    (enemyStep W7s 1 2).score = W7s.score + 200 ∧
    (enemyStep W7s 1 2).lives = W7s.lives ∧
    (enemyStep W7s 1 2).running = W7s.running ∧
    (findId (enemyStep W7s 1 2) 2).map (fun e => e.alive) = some false ∧
    (findId (enemyStep W7s 1 2) 1).map (fun e => e.dy) = some (-8) :=
  (player_enemy_consequence W7s 1 2 W7p W7e (by rfl) (by rfl) (by norm_num)
    (by norm_num [aabb_overlap, W7p, W7e])).1
    (by constructor <;> norm_num [W7p, W7e])

set_option maxRecDepth 2000 in
/-- C8: a Player-movement entity at rest exactly on top of a solid entity with
no input held is left by one physics tick grounded, with zero vertical
velocity, and with its y exactly the solid top minus its own height. -/
theorem player_rest_on_solid
    (s : RState) (e plat : Entity)
    (hents : s.entities = [e, plat])
    (hmov : e.movement = "Player")
    (halive : e.alive = true)
    (hgr : e.grounded = true)
    (hesolid : e.solid = false)
    (hdx : e.dx = 0) (hdy : e.dy = 0)
    (hy : e.y = plat.y - e.h)
    (hx1 : e.x < plat.x + plat.w) (hx2 : plat.x < e.x + e.w)
    (hpsolid : plat.solid = true) (hpalive : plat.alive = true)
    (hpid : plat.id ≠ e.id)
    (hh : (3/5 : ℚ) < e.h + plat.h)
    (hfall : plat.y - e.h ≤ (s.frames.getD s.frameIdx default).height + 50)
    (hkeys : s.keys = []) :
    ((update_physics s).entities.get? 0).map (fun e2 => (e2.grounded, e2.dy, e2.y)) =
      some (true, 0, plat.y - e.h) := by
  have h05 : ((0:ℚ) < 1/2) := by norm_num
  have hcap : ¬((3/5 : ℚ) > 15) := by norm_num
  have hpos : ((3/5 : ℚ) > 0) := by norm_num
  have hyov1 : plat.y - e.h + 3/5 < plat.y + plat.h := by linarith
  have hyov2 : plat.y - e.h + 3/5 + e.h > plat.y := by linarith
  have hnfall : ¬(plat.y - e.h > (s.frames.getD s.frameIdx default).height + 50) :=
    not_lt.mpr hfall
  have hpid2 : e.id ≠ plat.id := Ne.symm hpid
  have hfind : List.find? (fun x => x.id == plat.id) [e, plat] = some plat := by
    rw [List.find?_cons_of_neg _ (by simp [hpid2]), List.find?_cons_of_pos _ (by simp)]
  have hstep : ∀ fw fh, ¬(fh + 50 < plat.y - e.h) → playerStep s fw fh [plat.id] e =
      { e with x := clamp e.x (-e.w) fw, y := plat.y - e.h, dy := 0, grounded := true,
               dx := 0 } := by
    intro fw fh hfh
    simp [playerStep, resolveX, resolveY, aabb_overlap, findId, hents, hfind,
      hdx, hdy, hy, hpid, hpid2, hkeys, h05, hcap, hpos, hyov1, hyov2, hx1, hx2, hfh]
  have hnfall2 : ¬((s.frames.getD s.frameIdx default).height + 50 < plat.y - e.h) := hnfall
  have hrange : List.range s.entities.length = [0, 1] := by rw [hents]; rfl
  simp only [update_physics, hrange, List.foldl_cons, List.foldl_nil]
  rw [hents]
  have hnfall3 : ¬((s.frames[s.frameIdx]?.getD default).height + 50 < plat.y - e.h) := by
    simpa using hnfall
  simp [physEntity, hmov, halive, hpalive, hesolid, hpsolid, hstep, hnfall3]
  split <;> exact ⟨rfl, rfl, rfl⟩

/-- C8 witness: the concrete resting player is grounded with zero vertical
velocity and y exactly the platform top minus its height after one physics
tick. -/
theorem player_rest_on_solid_witness :
    ((update_physics W8s).entities.get? 0).map (fun e2 => (e2.grounded, e2.dy, e2.y)) =
      some (true, 0, W8plat.y - W8p.h) :=
  player_rest_on_solid W8s W8p W8plat rfl rfl rfl rfl rfl rfl rfl
    (by norm_num [W8p, W8plat]) (by norm_num [W8p, W8plat]) (by norm_num [W8p, W8plat])
    rfl rfl (by norm_num [W8p, W8plat]) (by norm_num [W8p, W8plat])
    (by norm_num [W8s, W8p, W8plat]) rfl

/-- C9: an out-of-range frame index, reached directly, through Go to frame, or
through Next frame on the last scene, ends the session (running := false) with
no other state change and no exception. -/
theorem out_of_range_frame_ends_session (s : RState) (idx : ℤ) :
    (idx < 0 ∨ (s.frames.length : ℤ) ≤ idx →
      load_frame s idx = { s with running := false } ∧
      exec_action s (Act.goToFrame idx) = { s with running := false }) ∧
    ((s.frames.length : ℤ) = (s.frameIdx : ℤ) + 1 →
      exec_action s Act.nextFrame = { s with running := false }) := by
  constructor
  · intro h
    have hl : load_frame s idx = { s with running := false } := by
      unfold load_frame
      rw [if_pos h]
    exact ⟨hl, hl⟩
  · intro h
    show load_frame s ((s.frameIdx : ℤ) + 1) = { s with running := false }
    unfold load_frame
    rw [if_pos (Or.inr (le_of_eq h))]

/-- C9 witness: frame index 5 with two frames ends the session through
load_frame and Go to frame, and Next frame on the last scene does too. -/
theorem out_of_range_frame_ends_session_witness :
    load_frame W9s 5 = { W9s with running := false } ∧
    exec_action W9s (Act.goToFrame 5) = { W9s with running := false } ∧
    exec_action W9s Act.nextFrame = { W9s with running := false } := by
  have h := out_of_range_frame_ends_session W9s 5
  exact ⟨(h.1 (by decide)).1, (h.1 (by decide)).2, h.2 (by decide)⟩

/-- C10: the Subtract life action clamps at zero and never ends the session
(only lives changes), while the built-in Player x Enemy damage path decrements
lives without the clamp and is the place where the session ends exactly when
the resulting lives are zero or below. -/
theorem subtract_life_clamped :
    (∀ s : RState, exec_action s Act.subtractLife = { s with lives := max 0 (s.lives - 1) }) ∧
    (∀ (s : RState) (pid eid : ℕ) (p en : Entity),
      findId s pid = some p → findId s eid = some en →
      aabb_overlap p en = true → ¬(p.dy > 0 ∧ p.y + p.h - 10 < en.y) →
      (enemyStep s pid eid).lives = s.lives - 1 ∧
      ((enemyStep s pid eid).running = false ↔ (s.lives - 1 ≤ 0 ∨ s.running = false))) := by
  refine ⟨fun s => rfl, ?_⟩
  intro s pid eid p en hp hen hov hnstomp
  simp only [enemyStep, hp, hen, hov, if_true, if_neg hnstomp]
  split
  · rename_i hle
    refine ⟨rfl, ?_⟩
    simp [hle]
  · rename_i hle
    refine ⟨rfl, ?_⟩
    simp at hle
    constructor
    · intro h
      exact Or.inr h
    · intro h
      rcases h with h | h
      · omega
      · exact h

/-- C10 witness: Subtract life at zero lives stays at zero and keeps the
session running, while the built-in damage path at zero lives reaches -1 and
ends the session. -/
theorem subtract_life_clamped_witness :
    exec_action W10s Act.subtractLife = { W10s with lives := max 0 (W10s.lives - 1) } ∧
    (enemyStep W10s 1 2).lives = W10s.lives - 1 ∧
    ((enemyStep W10s 1 2).running = false ↔ (W10s.lives - 1 ≤ 0 ∨ W10s.running = false)) := by
  have h2 := subtract_life_clamped.2 W10s 1 2 W10p W10e (by rfl) (by rfl)
    (by norm_num [aabb_overlap, W10p, W10e]) (by norm_num [W10p])
  exact ⟨subtract_life_clamped.1 W10s, h2.1, h2.2⟩

end ACE
